import Mathlib

/-!
# vp-engine: SQL rule compiler, shallow embedding

Shallow embedding of `src/core/validation_engine.py` (class `SQLValidationEngine`)
and of `src/models/validation.py` of the vp-engine repository, together with an
executable interpretation of the aggregate SQL templates the compiler emits.

Conventions of the embedding:
* Python rule dictionaries become the structure `PyRule`; a key that is absent
  (or present with value `None`) is modelled as `none`.  Python exceptions
  (`ValueError`, `KeyError`, `AttributeError`, `IndexError`) become the error
  side of `Except PyErr`.
* Numeric rule parameters (`min_value`, `max_value`, `max_gap_seconds`) are
  modelled as `Int`; statistical-function and operator parameters carry the
  string the rule dictionary supplies (the Python defaults `AVG`, `SUM`, `=`
  are `str`-valued enum members rendered by their value).
* Each generator ends in Python with `sql.strip()`; the static template
  boundaries stripped there (a single leading and trailing newline) are
  pre-applied to the Lean string literals, which is observationally the same
  because the surrounding characters of every template are static.
-/

/-- Python exception values surfaced by the compiler (`validation_engine.py`). -/
inductive PyErr where
  | valueError (msg : String)
  | keyError (key : String)
  | attributeError (msg : String)
  | indexError
  deriving Repr, DecidableEq

/-- `DataSourceType` enum of `src/models/validation.py` (lines 6-9). -/
inductive DataSourceType where
  | postgresql
  | mysql
  | csv
  deriving Repr, DecidableEq

/-- `TableReference` dictionaries as consumed by the comparison generators:
`schema_name`, `table`, `columns`, `filter_condition` keys, each possibly
absent (`none`). -/
structure PyTableRef where
  schema_name : Option String := none
  table : Option String := none
  columns : Option (List String) := none
  filter_condition : Option String := none
  deriving Repr, DecidableEq

/-- The `parameters` mapping of a rule dictionary: the keys read by the five
generators of `validation_engine.py`, each possibly absent (`none`). -/
structure PyParams where
  min_value : Option Int := none
  max_value : Option Int := none
  pattern : Option String := none
  regex_pattern : Option String := none
  sequence_type : Option String := none
  max_gap_seconds : Option Int := none
  table1 : Option PyTableRef := none
  table2 : Option PyTableRef := none
  statistical_function : Option String := none
  statistical_function1 : Option String := none
  statistical_function2 : Option String := none
  comparison_operator : Option String := none
  deriving Repr, DecidableEq

/-- A rule dictionary as consumed by `generate_validation_sql`: the tag may sit
under the `rule_type` key or the `type` key (field `type_` here). -/
structure PyRule where
  rule_type : Option String := none
  type_ : Option String := none
  name : Option String := none
  target_column : Option String := none
  parameters : PyParams := {}
  deriving Repr, DecidableEq

/-- `SQLGenerationContext` of `src/models/validation.py` (lines 102-106),
restricted to the fields the compiler reads. -/
structure SQLGenerationContext where
  database_type : DataSourceType
  schema_name : Option String := none
  table_name : String
  deriving Repr, DecidableEq

/-- Python truthiness of an optional string: `None` and `""` are falsy. -/
def strTruthy : Option String → Bool
  | none => false
  | some s => s ≠ ""

/-- Python `a or b` on two optional strings (used for
`rule.get('rule_type') or rule.get('type')`, line 47). -/
def pyOrOpt (a b : Option String) : Option String :=
  if strTruthy a then a else b

/-- Python `a or d` where `d` is a plain string (used for
`params.get('pattern') or params.get('regex_pattern', '.*')`, line 107). -/
def pyOrStr (a : Option String) (d : String) : String :=
  match a with
  | some s => if s = "" then d else s
  | none => d

/-- Rendering of the resolved tag inside the `ValueError` message of line 60:
Python prints `None` for an absent tag. -/
def pyStrOpt : Option String → String
  | none => "None"
  | some s => s

/-- The tag `generate_validation_sql` dispatches on (line 47):
`rule.get('rule_type') or rule.get('type')`. -/
def readTag (rule : PyRule) : Option String :=
  pyOrOpt rule.rule_type rule.type_

/-- `_get_table_reference` (lines 62-69) with its default arguments: the
context schema (when truthy) qualifies the context table name. -/
def getTableReference (ctx : SQLGenerationContext) : String :=
  if strTruthy ctx.schema_name then
    ctx.schema_name.getD "" ++ "." ++ ctx.table_name
  else
    ctx.table_name

/-- `rule['target_column']`: raises `KeyError` when the key is absent. -/
def requireTargetColumn (rule : PyRule) : Except PyErr String :=
  match rule.target_column with
  | none => Except.error (PyErr.keyError "target_column")
  | some c => Except.ok c

/-- The bound conditions of `_generate_value_range_sql` (lines 80-84): one
disjunct per present bound. -/
def rangeConditions (column : String) (minVal maxVal : Option Int) : List String :=
  (match minVal with
   | some m => [column ++ " < " ++ toString m]
   | none => []) ++
  (match maxVal with
   | some m => [column ++ " > " ++ toString m]
   | none => [])

/-- The failing predicate of `_generate_value_range_sql` (line 86):
`" OR ".join(conditions) if conditions else "1=0"`. -/
def rangeWhereClause (column : String) (minVal maxVal : Option Int) : String :=
  let conditions := rangeConditions column minVal maxVal
  if conditions = [] then "1=0" else String.intercalate " OR " conditions

/-- The aggregate script template shared by the range and template generators
(lines 88-100 and 118-130): counting query over a failing predicate with a
`WHERE col IS NOT NULL` restriction. -/
def singleTableSql (ruleName whereClause tableRef column : String) : String :=
  "SELECT \n    '" ++ ruleName ++ "' as rule_name,\n    COUNT(*) as total_rows,\n    SUM(CASE WHEN (" ++ whereClause ++ ") THEN 1 ELSE 0 END) as failed_rows,\n    COUNT(*) - SUM(CASE WHEN (" ++ whereClause ++ ") THEN 1 ELSE 0 END) as passed_rows,\n    CASE \n        WHEN SUM(CASE WHEN (" ++ whereClause ++ ") THEN 1 ELSE 0 END) = 0 THEN 'PASS'\n        ELSE 'FAIL'\n    END as status\nFROM " ++ tableRef ++ "\nWHERE " ++ column ++ " IS NOT NULL;"

/-- `_generate_value_range_sql` (lines 71-101). -/
def generateValueRangeSql (ctx : SQLGenerationContext) (rule : PyRule) :
    Except PyErr String := do
  let column ← requireTargetColumn rule
  let params := rule.parameters
  let tableRef := getTableReference ctx
  let whereClause := rangeWhereClause column params.min_value params.max_value
  Except.ok (singleTableSql (rule.name.getD "Value Range Check") whereClause tableRef column)

/-- The dialect-specific non-matching predicate of `_generate_value_template_sql`
(lines 111-116). -/
def regexCondition (dbType : DataSourceType) (column pattern : String) : String :=
  match dbType with
  | DataSourceType.postgresql => column ++ " !~ '" ++ pattern ++ "'"
  | DataSourceType.mysql => column ++ " NOT REGEXP '" ++ pattern ++ "'"
  | DataSourceType.csv => "NOT REGEXP_LIKE(" ++ column ++ ", '" ++ pattern ++ "')"

/-- `_generate_value_template_sql` (lines 103-131). -/
def generateValueTemplateSql (ctx : SQLGenerationContext) (rule : PyRule) :
    Except PyErr String := do
  let column ← requireTargetColumn rule
  let params := rule.parameters
  let pattern := pyOrStr params.pattern (params.regex_pattern.getD ".*")
  let tableRef := getTableReference ctx
  let cond := regexCondition ctx.database_type column pattern
  Except.ok (singleTableSql (rule.name.getD "Value Template Check") cond tableRef column)

/-- The incremental-mode continuity script (lines 142-165): ordered look-back
over the target column, counting rows not exactly one greater than their
predecessor. -/
def incrementalContinuitySql (ruleName column tableRef : String) : String :=
  "WITH sequence_check AS (\n    SELECT \n        " ++ column ++ ",\n        LAG(" ++ column ++ ") OVER (ORDER BY " ++ column ++ ") as prev_value,\n        ROW_NUMBER() OVER (ORDER BY " ++ column ++ ") as expected_sequence\n    FROM " ++ tableRef ++ "\n    WHERE " ++ column ++ " IS NOT NULL\n),\ngaps AS (\n    SELECT COUNT(*) as gap_count\n    FROM sequence_check\n    WHERE " ++ column ++ " != prev_value + 1 AND prev_value IS NOT NULL\n)\nSELECT \n    '" ++ ruleName ++ "' as rule_name,\n    (SELECT COUNT(*) FROM " ++ tableRef ++ ") as total_rows,\n    (SELECT gap_count FROM gaps) as failed_rows,\n    (SELECT COUNT(*) FROM " ++ tableRef ++ ") - (SELECT gap_count FROM gaps) as passed_rows,\n    CASE \n        WHEN (SELECT gap_count FROM gaps) = 0 THEN 'PASS'\n        ELSE 'FAIL'\n    END as status;"

/-- The timestamp-mode continuity script (lines 167-190): counts adjacent
gaps whose elapsed seconds exceed the configured threshold. -/
def timestampContinuitySql (ruleName column tableRef : String) (maxGap : Int) : String :=
  "WITH timestamp_gaps AS (\n    SELECT \n        COUNT(*) as gap_count\n    FROM (\n        SELECT \n            " ++ column ++ ",\n            LAG(" ++ column ++ ") OVER (ORDER BY " ++ column ++ ") as prev_timestamp,\n            EXTRACT(EPOCH FROM (" ++ column ++ " - LAG(" ++ column ++ ") OVER (ORDER BY " ++ column ++ "))) as time_diff\n        FROM " ++ tableRef ++ "\n        WHERE " ++ column ++ " IS NOT NULL\n    ) t\n    WHERE time_diff > " ++ toString maxGap ++ "\n)\nSELECT \n    '" ++ ruleName ++ "' as rule_name,\n    (SELECT COUNT(*) FROM " ++ tableRef ++ ") as total_rows,\n    (SELECT gap_count FROM timestamp_gaps) as failed_rows,\n    (SELECT COUNT(*) FROM " ++ tableRef ++ ") - (SELECT gap_count FROM timestamp_gaps) as passed_rows,\n    CASE \n        WHEN (SELECT gap_count FROM timestamp_gaps) = 0 THEN 'PASS'\n        ELSE 'FAIL'\n    END as status;"

/-- `_generate_data_continuity_sql` (lines 133-192). -/
def generateDataContinuitySql (ctx : SQLGenerationContext) (rule : PyRule) :
    Except PyErr String := do
  let column ← requireTargetColumn rule
  let params := rule.parameters
  let sequenceType := params.sequence_type.getD "incremental"
  let tableRef := getTableReference ctx
  if sequenceType = "incremental" then
    Except.ok (incrementalContinuitySql (rule.name.getD "Data Continuity Check") column tableRef)
  else
    Except.ok (timestampContinuitySql (rule.name.getD "Data Continuity Check") column tableRef
      (params.max_gap_seconds.getD 3600))

/-- The `AttributeError` Python raises when `params.get('table1')` returned
`None` and the generator calls `.get('schema_name')` on it (lines 202-203 and
258-259). -/
def attributeErrNone : PyErr :=
  PyErr.attributeError "'NoneType' object has no attribute 'get'"

/-- The table-reference expression of the comparison generators (lines 202-203
and 258-259): `t['table']`, schema-qualified when `schema_name` is truthy;
a missing `table` key raises `KeyError`. -/
def tableRefStr (t : PyTableRef) : Except PyErr String :=
  match t.table with
  | none => Except.error (PyErr.keyError "table")
  | some tbl =>
      if strTruthy t.schema_name then
        Except.ok (t.schema_name.getD "" ++ "." ++ tbl)
      else
        Except.ok tbl

/-- `t['columns']`: raises `KeyError` when the key is absent. -/
def requireColumns (t : PyTableRef) : Except PyErr (List String) :=
  match t.columns with
  | none => Except.error (PyErr.keyError "columns")
  | some cs => Except.ok cs

/-- `t['columns'][0]` (lines 205-206): `KeyError` when the key is absent,
`IndexError` when the list is empty. -/
def firstColumn (t : PyTableRef) : Except PyErr String := do
  let cs ← requireColumns t
  match cs with
  | [] => Except.error PyErr.indexError
  | c :: _ => Except.ok c

/-- The optional filter fragment of the comparison CTEs (lines 220/225 and
275/280): `WHERE {filter_condition}` when truthy, else the empty string. -/
def filterPart (t : PyTableRef) : String :=
  if strTruthy t.filter_condition then "WHERE " ++ t.filter_condition.getD "" else ""

/-- The comparison script template shared by lines 216-246 and 271-301: two
single-row statistic CTEs, a cross-joined comparison CTE, and a final one-row
projection (the different-statistics variant passes its first statistic
expression parenthesised). -/
def comparisonSqlTemplate (ruleName fnSql1 fnSql2 ref1 ref2 filter1 filter2 operator : String) :
    String :=
  "WITH stats1 AS (\n    SELECT " ++ fnSql1 ++ " as stat_value\n    FROM " ++ ref1 ++ "\n    " ++ filter1 ++ "\n),\nstats2 AS (\n    SELECT " ++ fnSql2 ++ " as stat_value\n    FROM " ++ ref2 ++ "\n    " ++ filter2 ++ "\n),\ncomparison AS (\n    SELECT \n        s1.stat_value as table1_stat,\n        s2.stat_value as table2_stat,\n        CASE \n            WHEN s1.stat_value " ++ operator ++ " s2.stat_value THEN 'PASS'\n            ELSE 'FAIL'\n        END as status\n    FROM stats1 s1, stats2 s2\n)\nSELECT \n    '" ++ ruleName ++ "' as rule_name,\n    1 as total_rows,\n    CASE WHEN status = 'FAIL' THEN 1 ELSE 0 END as failed_rows,\n    CASE WHEN status = 'PASS' THEN 1 ELSE 0 END as passed_rows,\n    status,\n    table1_stat,\n    table2_stat\nFROM comparison;"

/-- `_generate_same_statistical_comparison_sql` (lines 194-247). -/
def generateSameStatisticalComparisonSql (ctx : SQLGenerationContext) (rule : PyRule) :
    Except PyErr String :=
  let params := rule.parameters
  let function := params.statistical_function.getD "AVG"
  let operator := params.comparison_operator.getD "="
  match params.table1, params.table2 with
  | none, _ => Except.error attributeErrNone
  | some t1, none => do
      let _ ← tableRefStr t1
      Except.error attributeErrNone
  | some t1, some t2 => do
      let table1Ref ← tableRefStr t1
      let table2Ref ← tableRefStr t2
      let column1 ← firstColumn t1
      let column2 ← firstColumn t2
      let functionSql1 := if function = "COUNT_DISTINCT" then
          "COUNT(DISTINCT " ++ column1 ++ ")" else function ++ "(" ++ column1 ++ ")"
      let functionSql2 := if function = "COUNT_DISTINCT" then
          "COUNT(DISTINCT " ++ column2 ++ ")" else function ++ "(" ++ column2 ++ ")"
      Except.ok (comparisonSqlTemplate (rule.name.getD "Same Statistical Comparison")
        functionSql1 functionSql2 table1Ref table2Ref (filterPart t1) (filterPart t2) operator)

/-- Table 1's statistic expression of the different-statistics generator
(lines 264-267): per-column application of `function1` joined by `+` when more
than one column is listed, else applied to the single element, with
`IndexError` on an empty column list. -/
def columns1Expression (function1 : String) (columns1 : List String) : Except PyErr String :=
  if columns1.length > 1 then
    Except.ok (String.intercalate " + "
      (columns1.map (fun col => function1 ++ "(" ++ col ++ ")")))
  else
    match columns1 with
    | [] => Except.error PyErr.indexError
    | c :: _ => Except.ok (function1 ++ "(" ++ c ++ ")")

/-- Table 2's statistic expression of the different-statistics generator
(line 269): `function2` applied to the first listed column only. -/
def columns2Expression (function2 : String) (columns2 : List String) : Except PyErr String :=
  match columns2 with
  | [] => Except.error PyErr.indexError
  | c :: _ => Except.ok (function2 ++ "(" ++ c ++ ")")

/-- `_generate_different_statistical_comparison_sql` (lines 249-302). -/
def generateDifferentStatisticalComparisonSql (ctx : SQLGenerationContext) (rule : PyRule) :
    Except PyErr String :=
  let params := rule.parameters
  let function1 := params.statistical_function1.getD "SUM"
  let function2 := params.statistical_function2.getD "AVG"
  let operator := params.comparison_operator.getD "="
  match params.table1, params.table2 with
  | none, _ => Except.error attributeErrNone
  | some t1, none => do
      let _ ← tableRefStr t1
      Except.error attributeErrNone
  | some t1, some t2 => do
      let table1Ref ← tableRefStr t1
      let table2Ref ← tableRefStr t2
      let columns1 ← requireColumns t1
      let columns2 ← requireColumns t2
      let expr1 ← columns1Expression function1 columns1
      let expr2 ← columns2Expression function2 columns2
      Except.ok (comparisonSqlTemplate (rule.name.getD "Different Statistical Comparison")
        ("(" ++ expr1 ++ ")") expr2 table1Ref table2Ref (filterPart t1) (filterPart t2) operator)

/-- `generate_validation_sql` (lines 45-60): dispatch on the resolved tag,
raising `ValueError("Unsupported rule type: ...")` on anything outside the
five SQL-oriented tags. -/
def generate_validation_sql (ctx : SQLGenerationContext) (rule : PyRule) :
    Except PyErr String :=
  let ruleType := readTag rule
  if ruleType = some "value_range" then generateValueRangeSql ctx rule
  else if ruleType = some "value_template" then generateValueTemplateSql ctx rule
  else if ruleType = some "data_continuity" then generateDataContinuitySql ctx rule
  else if ruleType = some "same_statistical_comparison" then
    generateSameStatisticalComparisonSql ctx rule
  else if ruleType = some "different_statistical_comparison" then
    generateDifferentStatisticalComparisonSql ctx rule
  else Except.error (PyErr.valueError ("Unsupported rule type: " ++ pyStrOpt ruleType))

/-- `ComplexRule` of `src/models/validation.py` (lines 96-101), with the
`rules` dict modelled as its ordered item list. -/
structure PyComplexRule where
  name : String
  expression : String
  rules : List (String × PyRule)
  deriving Repr

/-- Python `str.rstrip(chars)` removes from the right every character that is
a member of `chars`, viewed as a set. -/
def pyRstrip (s : String) (chars : List Char) : String :=
  String.mk ((s.data.reverse.dropWhile (fun c => chars.contains c)).reverse)

/-- The character set `"\n\nUNION ALL\n\n"` the source passes to `rstrip`
(line 321). -/
def rstripChars : List Char := "\n\nUNION ALL\n\n".toList

/-- The leading comment block of a complex rule's combined script
(lines 313-317). -/
def complexRuleHeader (name expression : String) : String :=
  "\n-- Complex Rule: " ++ name ++ "\n-- Boolean Expression: " ++ expression ++ "\n\n"

/-- One sub-rule's appended block (line 319): rule-id comment, the sub-rule's
script, then the `UNION ALL` separator. -/
def subRuleBlock (ruleId sql : String) : String :=
  "-- Rule ID: " ++ ruleId ++ "\n" ++ sql ++ "\n\nUNION ALL\n\n"

/-- The loop of lines 306-309: generate each sub-rule's script in dict order,
propagating the first exception. -/
def generateRuleSqls (ctx : SQLGenerationContext) :
    List (String × PyRule) → Except PyErr (List (String × String))
  | [] => Except.ok []
  | p :: rest => do
      let s ← generate_validation_sql ctx p.2
      let others ← generateRuleSqls ctx rest
      Except.ok ((p.1, s) :: others)

/-- `generate_complex_rule_sql` (lines 304-323): generate every sub-rule's
script, concatenate the blocks after the comment header, then
`rstrip("\n\nUNION ALL\n\n")`. -/
def generate_complex_rule_sql (ctx : SQLGenerationContext) (complexRule : PyComplexRule) :
    Except PyErr String := do
  let ruleSqls ← generateRuleSqls ctx complexRule.rules
  let combined := complexRuleHeader complexRule.name complexRule.expression ++
    String.join (ruleSqls.map (fun p => subRuleBlock p.1 p.2))
  Except.ok (pyRstrip combined rstripChars)

/-- The part of a complex rule's combined script after the comment header:
the sub-rule blocks (`-- Rule ID:` comment plus script) joined by the
`UNION ALL` separator.  Note it does not depend on the boolean expression. -/
def complexBody : List (String × String) → String
  | [] => ""
  | [p] => "-- Rule ID: " ++ p.1 ++ "\n" ++ p.2
  | p :: q :: rest =>
      "-- Rule ID: " ++ p.1 ++ "\n" ++ p.2 ++ "\n\nUNION ALL\n\n" ++ complexBody (q :: rest)

/-! ## Interpretation of the emitted aggregate scripts

Each generated script is a self-contained aggregate query over the target
table.  The following definitions give the value of that query's single
result row on an abstract table, a column being a `List (Option Int)` with
`none` for SQL NULL. -/

/-- One result row of a single-table or continuity script (columns
`rule_name, total_rows, failed_rows, passed_rows, status`); a count column
is `none` when the corresponding SQL aggregate expression evaluates to
NULL. -/
structure SqlResultRow where
  rule_name : String
  total_rows : Nat
  failed_rows : Option Nat
  passed_rows : Option Nat
  status : String
  deriving Repr, DecidableEq

/-- The failing predicate denoted by the range script's `where_clause`
(lines 80-86) on a non-null value: `col < min` when the lower bound is
present, or-ed with `col > max` when the upper bound is present; the literal
false `1=0` when both are absent. -/
def rangeViolates (minVal maxVal : Option Int) (x : Int) : Bool :=
  (match minVal with
   | some m => decide (x < m)
   | none => false) ||
  (match maxVal with
   | some m => decide (x > m)
   | none => false)

/-- Value of `SUM(CASE WHEN pred THEN 1 ELSE 0 END)` over the surviving
rows: SQL's `SUM` over zero rows is NULL (`none`); over one or more rows it
is the count of rows satisfying the predicate (each `CASE` arm is 0 or 1,
never NULL). -/
def sqlSumCase (pred : Int → Bool) (vals : List Int) : Option Nat :=
  match vals with
  | [] => none
  | _ :: _ => some ((vals.filter pred).length)

/-- Value of the `singleTableSql` template (lines 88-100 / 118-130) on a
column: `COUNT(*)` over the rows passing `WHERE col IS NOT NULL`,
`failed_rows` the `SUM(CASE WHEN pred THEN 1 ELSE 0 END)` over the failing
predicate (NULL when no row survives the filter), `passed_rows` the
difference `COUNT(*) - SUM(...)` (NULL when the SUM is NULL), and the
`CASE WHEN SUM(...) = 0` status, whose comparison is UNKNOWN on a NULL SUM
so the `ELSE 'FAIL'` branch fires. -/
def singleTableRow (ruleName : String) (failPred : Int → Bool) (col : List (Option Int)) :
    SqlResultRow :=
  let nonNullValues := col.filterMap id
  let total := nonNullValues.length
  let failed := sqlSumCase failPred nonNullValues
  { rule_name := ruleName
    total_rows := total
    failed_rows := failed
    passed_rows := failed.map (fun f => total - f)
    status := if failed = some 0 then "PASS" else "FAIL" }

/-- The non-null column values in the `ORDER BY {column}` order used by the
continuity CTEs (lines 146-149 and 173-177). -/
def orderedNonNull (col : List (Option Int)) : List Int :=
  List.insertionSort (fun a b => a ≤ b) (col.filterMap id)

/-- `gap_count` of the incremental continuity script (lines 151-155): among
the consecutive pairs `(prev_value, col)` of the ordered non-null values,
those with `col != prev_value + 1`. -/
def incrementalGapCount (col : List (Option Int)) : Nat :=
  let vs := orderedNonNull col
  ((vs.zip vs.tail).filter (fun p => decide (p.2 ≠ p.1 + 1))).length

/-- `gap_count` of the timestamp continuity script (lines 168-180): among the
consecutive pairs of the ordered non-null values (in epoch seconds), those
whose difference exceeds the threshold. -/
def timestampGapCount (maxGap : Int) (col : List (Option Int)) : Nat :=
  let vs := orderedNonNull col
  ((vs.zip vs.tail).filter (fun p => decide (maxGap < p.2 - p.1))).length

/-- Value of the continuity scripts' final projection (lines 156-164 and
181-189): `total_rows` is `COUNT(*)` over the whole table (NULLs included),
`failed_rows` the gap count, `passed_rows` the difference.  The gap count
comes from a `COUNT(*)` subquery, which unlike `SUM` is 0 (never NULL) on an
empty input, so these counts are always non-NULL. -/
def continuityRow (ruleName : String) (gapCount : Nat) (col : List (Option Int)) :
    SqlResultRow :=
  { rule_name := ruleName
    total_rows := col.length
    failed_rows := some gapCount
    passed_rows := some (col.length - gapCount)
    status := if gapCount = 0 then "PASS" else "FAIL" }

/-- The claimed count invariant on a result row: both failure counts are
non-NULL naturals summing to `total_rows`. -/
def rowCountsConsistent (row : SqlResultRow) : Prop :=
  ∃ f q, row.failed_rows = some f ∧ row.passed_rows = some q ∧ row.total_rows = f + q

/-- One result row of a comparison script: the five common columns plus the
two raw statistics (lines 237-245 and 292-300); a statistic is `none` when
the aggregate over its table is SQL NULL. -/
structure SqlComparisonRow where
  rule_name : String
  total_rows : Nat
  failed_rows : Nat
  passed_rows : Nat
  status : String
  table1_stat : Option Int
  table2_stat : Option Int
  deriving Repr, DecidableEq

/-- The six SQL comparison operators interpolated by the comparison
generators (`ComparisonOperator` values of `src/models/validation.py`,
lines 78-84). -/
def comparisonOperators : List String := ["=", "!=", ">", "<", ">=", "<="]

/-- Value of `a {operator} b` for the six interpolated operators. -/
def evalOperator (operator : String) (a b : Int) : Bool :=
  if operator = "=" then decide (a = b)
  else if operator = "!=" then decide (a ≠ b)
  else if operator = ">" then decide (b < a)
  else if operator = "<" then decide (a < b)
  else if operator = ">=" then decide (b ≤ a)
  else if operator = "<=" then decide (a ≤ b)
  else false

/-- Three-valued SQL comparison of the two statistic scalars: a NULL operand
makes the `CASE WHEN` predicate non-true, so the `ELSE 'FAIL'` branch of the
comparison CTE fires. -/
def sqlCompare (operator : String) : Option Int → Option Int → Bool
  | some a, some b => evalOperator operator a b
  | _, _ => false

/-- Value of the final projection of `comparisonSqlTemplate` (lines 237-245
and 292-300): exactly one row, with `status` from the cross-joined comparison
CTE and the two statistics carried through. -/
def comparisonRow (ruleName operator : String) (s1 s2 : Option Int) : SqlComparisonRow :=
  let status := if sqlCompare operator s1 s2 then "PASS" else "FAIL"
  { rule_name := ruleName
    total_rows := 1
    failed_rows := if status = "FAIL" then 1 else 0
    passed_rows := if status = "PASS" then 1 else 0
    status := status
    table1_stat := s1
    table2_stat := s2 }

/-! ## Result aggregator and tabular validator (spec-modelled) -/

/-- `ValidationResult` of `src/models/validation.py` (lines 56-66), restricted
to the fields the summary aggregator reads. -/
structure PyValidationResult where
  rule_name : String
  status : String
  total_rows : Int := 0
  failed_rows : Int := 0
  passed_rows : Int := 0
  deriving Repr, DecidableEq

/-- A run summary: the counts of `RuleValidationSummary`
(`validation_engine.py` lines 28-36) plus the derived success rate. -/
structure PySummary where
  total_rules : Nat
  passed_rules : Nat
  failed_rules : Nat
  warning_rules : Nat
  error_rules : Nat
  success_rate : ℚ
  deriving Repr, DecidableEq

/-- Modelled from the spec: `RuleValidationSummary.generate_summary` is called
by `tests/test_validation_system.py` (line 211) but no implementation exists
under `src/` — `validation_engine.py` declares only the dataclass fields.
Spec §4.4: the aggregator folds a result list into counts of
PASS/FAIL/WARNING/ERROR statuses and the total rule count, a "pure, total
function", with "Success rate = passed / total, defined as 0 when total
is 0". -/
def generate_summary (results : List PyValidationResult) : PySummary :=
  let total := results.length
  let passed := (results.filter (fun r => r.status == "PASS")).length
  let failed := (results.filter (fun r => r.status == "FAIL")).length
  let warning := (results.filter (fun r => r.status == "WARNING")).length
  let error := (results.filter (fun r => r.status == "ERROR")).length
  { total_rules := total
    passed_rules := passed
    failed_rules := failed
    warning_rules := warning
    error_rules := error
    success_rate := if total = 0 then 0 else (passed : ℚ) / (total : ℚ) }

/-- Modelled from the spec: the Tabular Rule Validator of spec §4.3 is absent
from `src/` (no code implements the tabular vocabulary
{not_null, unique, range, format, enum}).  Per §4.3, the `unique` validator
reports "failing count = row_count − distinct_value_count (duplicate count)";
the distinct values of the in-memory column are obtained by deduplication. -/
def uniqueFailedRows {α : Type} [DecidableEq α] (col : List α) : Nat :=
  col.length - col.dedup.length

/-- The five SQL-oriented tags recognised by the dispatch of
`generate_validation_sql` (the values of the `RuleType` enum,
`src/models/validation.py` lines 11-16). -/
def sqlRuleTags : List (Option String) :=
  [some "value_range", some "value_template", some "data_continuity",
   some "same_statistical_comparison", some "different_statistical_comparison"]

/-- A rule carrying its tag only under the `type` key. -/
def ruleWithTypeKey (t : String) (nm tc : Option String) (ps : PyParams) : PyRule :=
  { rule_type := none, type_ := some t, name := nm, target_column := tc, parameters := ps }

/-- A rule carrying its tag only under the `rule_type` key. -/
def ruleWithRuleTypeKey (t : String) (nm tc : Option String) (ps : PyParams) : PyRule :=
  { rule_type := some t, type_ := none, name := nm, target_column := tc, parameters := ps }

/-- A rule whose `rule_type` key holds the falsy empty string next to a
`type` key. -/
def ruleWithEmptyRuleType (t : String) (nm tc : Option String) (ps : PyParams) : PyRule :=
  { rule_type := some "", type_ := some t, name := nm, target_column := tc, parameters := ps }

/-- An error value is not a `ValueError` (the exception class of the
"Unsupported rule type" failure). -/
def notValueError (e : PyErr) : Prop := ∀ msg, e ≠ PyErr.valueError msg

theorem generateValueRangeSql_not_valueError (ctx : SQLGenerationContext) (rule : PyRule)
    (msg : String) : generateValueRangeSql ctx rule ≠ Except.error (PyErr.valueError msg) := by
  unfold generateValueRangeSql requireTargetColumn
  cases rule.target_column <;> simp [Bind.bind, Except.bind]

theorem generateValueTemplateSql_not_valueError (ctx : SQLGenerationContext) (rule : PyRule)
    (msg : String) : generateValueTemplateSql ctx rule ≠ Except.error (PyErr.valueError msg) := by
  unfold generateValueTemplateSql requireTargetColumn
  cases rule.target_column <;> simp [Bind.bind, Except.bind]

theorem generateDataContinuitySql_not_valueError (ctx : SQLGenerationContext) (rule : PyRule)
    (msg : String) : generateDataContinuitySql ctx rule ≠ Except.error (PyErr.valueError msg) := by
  unfold generateDataContinuitySql requireTargetColumn
  cases rule.target_column <;> simp [Bind.bind, Except.bind] <;> split <;> simp

theorem tableRefStr_error_shape (t : PyTableRef) (e : PyErr)
    (h : tableRefStr t = Except.error e) : notValueError e := by
  intro msg hmsg
  subst hmsg
  revert h
  unfold tableRefStr
  cases t.table <;> simp <;> split <;> simp

theorem firstColumn_error_shape (t : PyTableRef) (e : PyErr)
    (h : firstColumn t = Except.error e) : notValueError e := by
  intro msg hmsg
  subst hmsg
  revert h
  unfold firstColumn requireColumns
  cases t.columns with
  | none => simp [Bind.bind, Except.bind]
  | some cs => cases cs <;> simp [Bind.bind, Except.bind]

theorem requireColumns_error_shape (t : PyTableRef) (e : PyErr)
    (h : requireColumns t = Except.error e) : notValueError e := by
  intro msg hmsg
  subst hmsg
  revert h
  unfold requireColumns
  cases t.columns <;> simp

theorem columns1Expression_error_shape (f : String) (cs : List String) (e : PyErr)
    (h : columns1Expression f cs = Except.error e) : notValueError e := by
  intro msg hmsg
  subst hmsg
  revert h
  unfold columns1Expression
  split
  · simp
  · cases cs <;> simp

theorem columns2Expression_error_shape (f : String) (cs : List String) (e : PyErr)
    (h : columns2Expression f cs = Except.error e) : notValueError e := by
  intro msg hmsg
  subst hmsg
  revert h
  unfold columns2Expression
  cases cs <;> simp

theorem generateSameStatisticalComparisonSql_not_valueError (ctx : SQLGenerationContext)
    (rule : PyRule) (msg : String) :
    generateSameStatisticalComparisonSql ctx rule ≠ Except.error (PyErr.valueError msg) := by
  unfold generateSameStatisticalComparisonSql
  cases h1 : rule.parameters.table1 with
  | none => simp [h1, attributeErrNone]
  | some t1 =>
    cases h2 : rule.parameters.table2 with
    | none =>
      cases h : tableRefStr t1 with
      | ok v => simp [h1, h2, Bind.bind, Except.bind, h, attributeErrNone]
      | error e =>
        simp only [h1, h2, Bind.bind, Except.bind, h]
        simp
        exact tableRefStr_error_shape t1 e h msg
    | some t2 =>
      cases h3 : tableRefStr t1 with
      | error e =>
        simp only [h1, h2, Bind.bind, Except.bind, h3]
        simp
        exact tableRefStr_error_shape t1 e h3 msg
      | ok v1 =>
        cases h4 : tableRefStr t2 with
        | error e =>
          simp only [h1, h2, Bind.bind, Except.bind, h3, h4]
          simp
          exact tableRefStr_error_shape t2 e h4 msg
        | ok v2 =>
          cases h5 : firstColumn t1 with
          | error e =>
            simp only [h1, h2, Bind.bind, Except.bind, h3, h4, h5]
            simp
            exact firstColumn_error_shape t1 e h5 msg
          | ok c1 =>
            cases h6 : firstColumn t2 with
            | error e =>
              simp only [h1, h2, Bind.bind, Except.bind, h3, h4, h5, h6]
              simp
              exact firstColumn_error_shape t2 e h6 msg
            | ok c2 => simp [h1, h2, Bind.bind, Except.bind, h3, h4, h5, h6]

theorem generateDifferentStatisticalComparisonSql_not_valueError (ctx : SQLGenerationContext)
    (rule : PyRule) (msg : String) :
    generateDifferentStatisticalComparisonSql ctx rule ≠ Except.error (PyErr.valueError msg) := by
  unfold generateDifferentStatisticalComparisonSql
  cases h1 : rule.parameters.table1 with
  | none => simp [h1, attributeErrNone]
  | some t1 =>
    cases h2 : rule.parameters.table2 with
    | none =>
      cases h : tableRefStr t1 with
      | ok v => simp [h1, h2, Bind.bind, Except.bind, h, attributeErrNone]
      | error e =>
        simp only [h1, h2, Bind.bind, Except.bind, h]
        simp
        exact tableRefStr_error_shape t1 e h msg
    | some t2 =>
      cases h3 : tableRefStr t1 with
      | error e =>
        simp only [h1, h2, Bind.bind, Except.bind, h3]
        simp
        exact tableRefStr_error_shape t1 e h3 msg
      | ok v1 =>
        cases h4 : tableRefStr t2 with
        | error e =>
          simp only [h1, h2, Bind.bind, Except.bind, h3, h4]
          simp
          exact tableRefStr_error_shape t2 e h4 msg
        | ok v2 =>
          cases h5 : requireColumns t1 with
          | error e =>
            simp only [h1, h2, Bind.bind, Except.bind, h3, h4, h5]
            simp
            exact requireColumns_error_shape t1 e h5 msg
          | ok cs1 =>
            cases h6 : requireColumns t2 with
            | error e =>
              simp only [h1, h2, Bind.bind, Except.bind, h3, h4, h5, h6]
              simp
              exact requireColumns_error_shape t2 e h6 msg
            | ok cs2 =>
              cases h7 : columns1Expression (rule.parameters.statistical_function1.getD "SUM") cs1 with
              | error e =>
                simp only [h1, h2, Bind.bind, Except.bind, h3, h4, h5, h6, h7]
                simp
                exact columns1Expression_error_shape _ cs1 e h7 msg
              | ok e1 =>
                cases h8 : columns2Expression (rule.parameters.statistical_function2.getD "AVG") cs2 with
                | error e =>
                  simp only [h1, h2, Bind.bind, Except.bind, h3, h4, h5, h6, h7, h8]
                  simp
                  exact columns2Expression_error_shape _ cs2 e h8 msg
                | ok e2 => simp [h1, h2, Bind.bind, Except.bind, h3, h4, h5, h6, h7, h8]

/-- C1: a rule whose resolved tag is outside the five SQL-oriented tags makes
`generate_validation_sql` raise the `ValueError "Unsupported rule type: ..."`
and return no SQL, and a rule carrying one of the five tags never triggers
that dispatch error. -/
theorem unsupported_tag_dispatch (ctx : SQLGenerationContext) (rule : PyRule) :
    ((∃ msg, generate_validation_sql ctx rule = Except.error (PyErr.valueError msg)) ↔
      readTag rule ∉ sqlRuleTags) ∧
    (readTag rule ∉ sqlRuleTags →
      generate_validation_sql ctx rule =
        Except.error (PyErr.valueError ("Unsupported rule type: " ++ pyStrOpt (readTag rule)))) := by
  by_cases h1 : readTag rule = some "value_range"
  · have hg : generate_validation_sql ctx rule = generateValueRangeSql ctx rule := by
      simp [generate_validation_sql, h1]
    have hmem : readTag rule ∈ sqlRuleTags := by simp [sqlRuleTags, h1]
    exact ⟨⟨fun ⟨msg, hmsg⟩ =>
      absurd (hg.symm.trans hmsg) (generateValueRangeSql_not_valueError ctx rule msg),
      fun hn => (hn hmem).elim⟩, fun hn => (hn hmem).elim⟩
  by_cases h2 : readTag rule = some "value_template"
  · have hg : generate_validation_sql ctx rule = generateValueTemplateSql ctx rule := by
      simp [generate_validation_sql, h1, h2]
    have hmem : readTag rule ∈ sqlRuleTags := by simp [sqlRuleTags, h2]
    exact ⟨⟨fun ⟨msg, hmsg⟩ =>
      absurd (hg.symm.trans hmsg) (generateValueTemplateSql_not_valueError ctx rule msg),
      fun hn => (hn hmem).elim⟩, fun hn => (hn hmem).elim⟩
  by_cases h3 : readTag rule = some "data_continuity"
  · have hg : generate_validation_sql ctx rule = generateDataContinuitySql ctx rule := by
      simp [generate_validation_sql, h1, h2, h3]
    have hmem : readTag rule ∈ sqlRuleTags := by simp [sqlRuleTags, h3]
    exact ⟨⟨fun ⟨msg, hmsg⟩ =>
      absurd (hg.symm.trans hmsg) (generateDataContinuitySql_not_valueError ctx rule msg),
      fun hn => (hn hmem).elim⟩, fun hn => (hn hmem).elim⟩
  by_cases h4 : readTag rule = some "same_statistical_comparison"
  · have hg : generate_validation_sql ctx rule = generateSameStatisticalComparisonSql ctx rule := by
      simp [generate_validation_sql, h1, h2, h3, h4]
    have hmem : readTag rule ∈ sqlRuleTags := by simp [sqlRuleTags, h4]
    exact ⟨⟨fun ⟨msg, hmsg⟩ =>
      absurd (hg.symm.trans hmsg) (generateSameStatisticalComparisonSql_not_valueError ctx rule msg),
      fun hn => (hn hmem).elim⟩, fun hn => (hn hmem).elim⟩
  by_cases h5 : readTag rule = some "different_statistical_comparison"
  · have hg : generate_validation_sql ctx rule =
        generateDifferentStatisticalComparisonSql ctx rule := by
      simp [generate_validation_sql, h1, h2, h3, h4, h5]
    have hmem : readTag rule ∈ sqlRuleTags := by simp [sqlRuleTags, h5]
    exact ⟨⟨fun ⟨msg, hmsg⟩ =>
      absurd (hg.symm.trans hmsg)
        (generateDifferentStatisticalComparisonSql_not_valueError ctx rule msg),
      fun hn => (hn hmem).elim⟩, fun hn => (hn hmem).elim⟩
  · have hg : generate_validation_sql ctx rule =
        Except.error (PyErr.valueError ("Unsupported rule type: " ++ pyStrOpt (readTag rule))) := by
      simp [generate_validation_sql, h1, h2, h3, h4, h5]
    have hmem : readTag rule ∉ sqlRuleTags := by simp [sqlRuleTags, h1, h2, h3, h4, h5]
    exact ⟨⟨fun _ => hmem, fun _ => ⟨_, hg⟩⟩, fun _ => hg⟩

/-- Witness for C1: a rule tagged `foo` is rejected with the exact
"Unsupported rule type" message. -/
theorem unsupported_tag_dispatch_witness :
    generate_validation_sql { database_type := DataSourceType.postgresql, table_name := "users" }
        { rule_type := some "foo" } =
      Except.error (PyErr.valueError "Unsupported rule type: foo") :=
  (unsupported_tag_dispatch
    { database_type := DataSourceType.postgresql, table_name := "users" }
    { rule_type := some "foo" }).2 (by decide)

/-- C10: the dispatch tag is read from the `rule_type` key and falls back to
the `type` key when `rule_type` is absent or maps to an empty value, so a
rule supplied only under `type` compiles to exactly the same SQL as the same
rule supplied under `rule_type`. -/
theorem type_key_fallback (ctx : SQLGenerationContext) (t : String) (nm tc : Option String)
    (ps : PyParams) (ht : t ≠ "") :
    readTag (ruleWithTypeKey t nm tc ps) = some t ∧
    readTag (ruleWithEmptyRuleType t nm tc ps) = some t ∧
    readTag (ruleWithRuleTypeKey t nm tc ps) = some t ∧
    generate_validation_sql ctx (ruleWithTypeKey t nm tc ps) =
      generate_validation_sql ctx (ruleWithRuleTypeKey t nm tc ps) := by
  have hr1 : readTag (ruleWithTypeKey t nm tc ps) = some t := by
    simp [readTag, ruleWithTypeKey, pyOrOpt, strTruthy]
  have hr2 : readTag (ruleWithRuleTypeKey t nm tc ps) = some t := by
    simp [readTag, ruleWithRuleTypeKey, pyOrOpt, strTruthy, ht]
  have hr3 : readTag (ruleWithEmptyRuleType t nm tc ps) = some t := by
    simp [readTag, ruleWithEmptyRuleType, pyOrOpt, strTruthy]
  refine ⟨hr1, hr3, hr2, ?_⟩
  unfold generate_validation_sql
  rw [hr1, hr2]
  dsimp only
  split_ifs <;> rfl

/-- Witness for C10: a `value_range` rule under the `type` key alone yields
the same SQL as under `rule_type`. -/
theorem type_key_fallback_witness :
    generate_validation_sql { database_type := DataSourceType.postgresql, table_name := "users" }
      (ruleWithTypeKey "value_range" none (some "age") {}) =
    generate_validation_sql { database_type := DataSourceType.postgresql, table_name := "users" }
      (ruleWithRuleTypeKey "value_range" none (some "age") {}) :=
  (type_key_fallback { database_type := DataSourceType.postgresql, table_name := "users" }
    "value_range" none (some "age") {} (by decide)).2.2.2

/-- C3 counterexample: on a column whose only row is NULL, the no-bounds
range script's `SUM` aggregates over zero surviving rows, so the script
reports `failed_rows` NULL (not 0) and status `FAIL`. -/
theorem value_range_vacuous_null_counterexample :
    (singleTableRow "Value Range Check" (rangeViolates none none) [none]).failed_rows = none ∧
    (singleTableRow "Value Range Check" (rangeViolates none none) [none]).status = "FAIL" ∧
    ¬ (singleTableRow "Value Range Check" (rangeViolates none none) [none]).failed_rows
        = some 0 := by
  exact ⟨rfl, rfl, by decide⟩

/-- C3 (amended): the range script's failing predicate is
`(col < min) OR (col > max)` with each disjunct present exactly when its
bound is present; with both bounds absent the predicate is the literal
`1=0`, so the script reports zero failures on every input that has at least
one non-NULL target value, while on a column with no non-NULL values SQL's
`SUM` over zero rows makes `failed_rows` NULL with status `FAIL`; and the
script counts only rows passing `WHERE col IS NOT NULL`, so NULL target
values are in neither the passed nor the failed count. -/
theorem value_range_predicate_and_null_handling (ctx : SQLGenerationContext)
    (c nm tr : String) (m M : Int) (minVal maxVal : Option Int) (ps : PyParams)
    (col : List (Option Int)) :
    rangeWhereClause c (some m) (some M) =
      c ++ " < " ++ toString m ++ " OR " ++ c ++ " > " ++ toString M ∧
    rangeWhereClause c (some m) none = c ++ " < " ++ toString m ∧
    rangeWhereClause c none (some M) = c ++ " > " ++ toString M ∧
    rangeWhereClause c none none = "1=0" ∧
    (col.filterMap id ≠ [] →
      (singleTableRow nm (rangeViolates none none) col).failed_rows = some 0 ∧
      (singleTableRow nm (rangeViolates none none) col).status = "PASS") ∧
    (col.filterMap id = [] →
      (singleTableRow nm (rangeViolates minVal maxVal) col).failed_rows = none ∧
      (singleTableRow nm (rangeViolates minVal maxVal) col).passed_rows = none ∧
      (singleTableRow nm (rangeViolates minVal maxVal) col).status = "FAIL") ∧
    (singleTableRow nm (rangeViolates minVal maxVal) col).total_rows =
      (col.filterMap id).length ∧
    (col.filterMap id ≠ [] →
      (singleTableRow nm (rangeViolates minVal maxVal) col).failed_rows =
        some ((col.filterMap id).filter (rangeViolates minVal maxVal)).length ∧
      (singleTableRow nm (rangeViolates minVal maxVal) col).passed_rows =
        some ((col.filterMap id).filter (fun x => ! rangeViolates minVal maxVal x)).length) ∧
    (∃ pre, singleTableSql nm (rangeWhereClause c minVal maxVal) tr c =
      pre ++ "\nWHERE " ++ c ++ " IS NOT NULL;") ∧
    generateValueRangeSql ctx (ruleWithRuleTypeKey "value_range" (some nm) (some c) ps) =
      Except.ok (singleTableSql nm (rangeWhereClause c ps.min_value ps.max_value)
        (getTableReference ctx) c) := by
  refine ⟨?_, ?_, ?_, ?_, ?_, ?_, rfl, ?_, ⟨_, rfl⟩, rfl⟩
  · simp [rangeWhereClause, rangeConditions, String.intercalate, String.intercalate.go,
      String.append_assoc]
  · simp [rangeWhereClause, rangeConditions, String.intercalate, String.intercalate.go]
  · simp [rangeWhereClause, rangeConditions, String.intercalate, String.intercalate.go]
  · simp [rangeWhereClause, rangeConditions]
  · intro hne
    cases hnn : col.filterMap id with
    | nil => exact absurd hnn hne
    | cons a l => simp [singleTableRow, sqlSumCase, hnn, rangeViolates]
  · intro he
    simp [singleTableRow, sqlSumCase, he]
  · intro hne
    cases hnn : col.filterMap id with
    | nil => exact absurd hnn hne
    | cons a l =>
      have hsplit : (a :: l).length =
          ((a :: l).filter (rangeViolates minVal maxVal)).length +
          ((a :: l).filter (fun x => ! rangeViolates minVal maxVal x)).length := by
        rw [← List.countP_eq_length_filter, ← List.countP_eq_length_filter]
        simpa using List.length_eq_countP_add_countP (rangeViolates minVal maxVal) (a :: l)
      constructor
      · simp [singleTableRow, sqlSumCase, hnn]
      · simp only [singleTableRow, sqlSumCase, hnn, Option.map_some', Option.some.injEq]
        omega

/-- Witness for C3 (amended): on `[some 5]` the no-bounds script passes with
zero failures; on the all-NULL column `[none]` the bounded script reports
NULL failure counts and status `FAIL`. -/
theorem value_range_predicate_and_null_handling_witness :
    ((singleTableRow "R" (rangeViolates none none) [some 5]).failed_rows = some 0 ∧
      (singleTableRow "R" (rangeViolates none none) [some 5]).status = "PASS") ∧
    ((singleTableRow "R" (rangeViolates (some 100) (some 10000)) [none]).failed_rows = none ∧
      (singleTableRow "R" (rangeViolates (some 100) (some 10000)) [none]).passed_rows = none ∧
      (singleTableRow "R" (rangeViolates (some 100) (some 10000)) [none]).status = "FAIL") ∧
    ((singleTableRow "R" (rangeViolates (some 100) (some 10000)) [some 5, none]).failed_rows =
        some 1 ∧
      (singleTableRow "R" (rangeViolates (some 100) (some 10000)) [some 5, none]).passed_rows =
        some 0) :=
  ⟨(value_range_predicate_and_null_handling
      { database_type := DataSourceType.postgresql, table_name := "users" }
      "age" "R" "users" 0 0 (some 100) (some 10000) {} [some 5]).2.2.2.2.1 (by decide),
   (value_range_predicate_and_null_handling
      { database_type := DataSourceType.postgresql, table_name := "users" }
      "age" "R" "users" 0 0 (some 100) (some 10000) {} [none]).2.2.2.2.2.1 (by decide),
   by
    have h := (value_range_predicate_and_null_handling
      { database_type := DataSourceType.postgresql, table_name := "users" }
      "age" "R" "users" 0 0 (some 100) (some 10000) {} [some 5, none]).2.2.2.2.2.2.2.1
      (by decide)
    exact ⟨by rw [h.1]; decide, by rw [h.2]; decide⟩⟩

theorem adjacentFilteredCount_le (f : Int × Int → Bool) (col : List (Option Int)) :
    (((orderedNonNull col).zip (orderedNonNull col).tail).filter f).length ≤ col.length := by
  have h1 := List.length_filter_le f ((orderedNonNull col).zip (orderedNonNull col).tail)
  have h2 : ((orderedNonNull col).zip (orderedNonNull col).tail).length ≤
      (orderedNonNull col).length := by
    rw [List.length_zip]
    exact min_le_left _ _
  have h3 : (orderedNonNull col).length = (col.filterMap id).length := by
    simp [orderedNonNull, List.length_insertionSort]
  have h4 : (col.filterMap id).length ≤ col.length := List.length_filterMap_le id col
  omega

/-- C6 counterexample: on a column whose only row is NULL, the range script's
row has status `FAIL` (within {PASS, FAIL}) yet `failed_rows` and
`passed_rows` are NULL, so `total_rows = failed_rows + passed_rows` does not
hold there. -/
theorem counts_invariant_counterexample :
    (singleTableRow "Value Range Check" (rangeViolates (some 100) (some 10000)) [none]).status
      = "FAIL" ∧
    ¬ rowCountsConsistent
      (singleTableRow "Value Range Check" (rangeViolates (some 100) (some 10000)) [none]) := by
  constructor
  · rfl
  · rintro ⟨f, q, hf, hq, ht⟩
    rw [show (singleTableRow "Value Range Check" (rangeViolates (some 100) (some 10000))
      [none]).failed_rows = none from rfl] at hf
    exact Option.noConfusion hf

/-- C6 (amended): each generated script's row satisfies
`total_rows = failed_rows + passed_rows` with status PASS or FAIL — for the
range/template scripts whenever at least one non-NULL target value exists
(`passed_rows` is computed as the total count minus the failed count), for
the continuity scripts on every table, and for the comparison scripts as
`1 = failed + passed`; but a range/template script on a column with no
non-NULL values reports NULL failure counts with status FAIL, where the
invariant has no value. -/
theorem total_eq_failed_add_passed (nm : String) (p : Int → Bool) (col : List (Option Int))
    (gapMax : Int) (op : String) (s1 s2 : Option Int) :
    (col.filterMap id ≠ [] →
      rowCountsConsistent (singleTableRow nm p col) ∧
      ((singleTableRow nm p col).status = "PASS" ∨
        (singleTableRow nm p col).status = "FAIL")) ∧
    (col.filterMap id = [] →
      (singleTableRow nm p col).failed_rows = none ∧
      (singleTableRow nm p col).passed_rows = none ∧
      (singleTableRow nm p col).status = "FAIL") ∧
    (rowCountsConsistent (continuityRow nm (incrementalGapCount col) col) ∧
      ((continuityRow nm (incrementalGapCount col) col).status = "PASS" ∨
        (continuityRow nm (incrementalGapCount col) col).status = "FAIL")) ∧
    (rowCountsConsistent (continuityRow nm (timestampGapCount gapMax col) col) ∧
      ((continuityRow nm (timestampGapCount gapMax col) col).status = "PASS" ∨
        (continuityRow nm (timestampGapCount gapMax col) col).status = "FAIL")) ∧
    ((comparisonRow nm op s1 s2).total_rows =
        (comparisonRow nm op s1 s2).failed_rows + (comparisonRow nm op s1 s2).passed_rows ∧
      ((comparisonRow nm op s1 s2).status = "PASS" ∨
        (comparisonRow nm op s1 s2).status = "FAIL")) := by
  refine ⟨?_, ?_, ⟨?_, ?_⟩, ⟨?_, ?_⟩, ⟨?_, ?_⟩⟩
  · intro hne
    cases hnn : col.filterMap id with
    | nil => exact absurd hnn hne
    | cons a l =>
      constructor
      · refine ⟨((a :: l).filter p).length, (a :: l).length - ((a :: l).filter p).length,
          ?_, ?_, ?_⟩
        · simp [singleTableRow, sqlSumCase, hnn]
        · simp [singleTableRow, sqlSumCase, hnn]
        · have h := List.length_filter_le p (a :: l)
          simp only [singleTableRow, hnn]
          omega
      · simp only [singleTableRow, sqlSumCase, hnn]
        split <;> simp
  · intro he
    simp [singleTableRow, sqlSumCase, he]
  · refine ⟨incrementalGapCount col, col.length - incrementalGapCount col, rfl, rfl, ?_⟩
    have h := adjacentFilteredCount_le (fun q => decide (q.2 ≠ q.1 + 1)) col
    simp only [continuityRow, incrementalGapCount] at h ⊢
    omega
  · simp only [continuityRow]
    split <;> simp
  · refine ⟨timestampGapCount gapMax col, col.length - timestampGapCount gapMax col,
      rfl, rfl, ?_⟩
    have h := adjacentFilteredCount_le (fun q => decide (gapMax < q.2 - q.1)) col
    simp only [continuityRow, timestampGapCount] at h ⊢
    omega
  · simp only [continuityRow]
    split <;> simp
  · simp only [comparisonRow]
    split <;> simp
  · simp only [comparisonRow]
    split <;> simp

/-- Witness for C6 (amended): the invariant holds on a table with a non-NULL
value; on the all-NULL column the failure counts are NULL with status
FAIL. -/
theorem total_eq_failed_add_passed_witness :
    (rowCountsConsistent (singleTableRow "R" (rangeViolates (some 1) none) [some 5]) ∧
      ((singleTableRow "R" (rangeViolates (some 1) none) [some 5]).status = "PASS" ∨
        (singleTableRow "R" (rangeViolates (some 1) none) [some 5]).status = "FAIL")) ∧
    ((singleTableRow "R" (rangeViolates (some 1) none) [none]).failed_rows = none ∧
      (singleTableRow "R" (rangeViolates (some 1) none) [none]).passed_rows = none ∧
      (singleTableRow "R" (rangeViolates (some 1) none) [none]).status = "FAIL") :=
  ⟨(total_eq_failed_add_passed "R" (rangeViolates (some 1) none) [some 5] 3600 "="
      none none).1 (by decide),
   (total_eq_failed_add_passed "R" (rangeViolates (some 1) none) [none] 3600 "="
      none none).2.1 (by decide)⟩

/-- C7: a comparison script's final result set is the single row
`(rule_name, total_rows, failed_rows, passed_rows, status, table1_stat,
table2_stat)` with `total_rows = 1`, `status = PASS` exactly when the chosen
operator holds between the two computed statistics, `failed_rows = 1` iff the
status is FAIL, and `passed_rows = 1` iff the status is PASS. -/
theorem comparison_row_shape (nm op : String) (s1 s2 : Option Int)
    (hop : op ∈ comparisonOperators) :
    (comparisonRow nm op s1 s2).rule_name = nm ∧
    (comparisonRow nm op s1 s2).total_rows = 1 ∧
    ((comparisonRow nm op s1 s2).status = "PASS" ↔ sqlCompare op s1 s2 = true) ∧
    ((comparisonRow nm op s1 s2).status = "FAIL" ↔ ¬ sqlCompare op s1 s2 = true) ∧
    ((comparisonRow nm op s1 s2).failed_rows = 1 ↔
      (comparisonRow nm op s1 s2).status = "FAIL") ∧
    ((comparisonRow nm op s1 s2).passed_rows = 1 ↔
      (comparisonRow nm op s1 s2).status = "PASS") ∧
    (comparisonRow nm op s1 s2).table1_stat = s1 ∧
    (comparisonRow nm op s1 s2).table2_stat = s2 := by
  clear hop
  refine ⟨rfl, rfl, ?_, ?_, ?_, ?_, rfl, rfl⟩ <;>
    simp only [comparisonRow] <;> split <;> simp_all

/-- Witness for C7: `COUNT_DISTINCT`-style equality comparison with equal
statistics 3 and 3 gives a passing single row. -/
theorem comparison_row_shape_witness :
    (comparisonRow "Same Statistical Comparison" "=" (some 3) (some 3)).status = "PASS" ∧
    (comparisonRow "Same Statistical Comparison" "=" (some 3) (some 3)).passed_rows = 1 :=
  ⟨((comparison_row_shape "Same Statistical Comparison" "=" (some 3) (some 3)
      (by decide)).2.2.1).mpr (by decide),
   ((comparison_row_shape "Same Statistical Comparison" "=" (some 3) (some 3)
      (by decide)).2.2.2.2.2.1).mpr
     (((comparison_row_shape "Same Statistical Comparison" "=" (some 3) (some 3)
      (by decide)).2.2.1).mpr (by decide))⟩

/-- C4: the result aggregator (spec-modelled, absent from src) is total on
result lists: every list yields a summary whose `total_rules` is the list
length, and the empty list yields all counts 0 with success rate 0 rather
than a division error. -/
theorem generate_summary_total_and_empty (results : List PyValidationResult) :
    (generate_summary results).total_rules = results.length ∧
    (generate_summary []).total_rules = 0 ∧
    (generate_summary []).passed_rules = 0 ∧
    (generate_summary []).failed_rules = 0 ∧
    (generate_summary []).warning_rules = 0 ∧
    (generate_summary []).error_rules = 0 ∧
    (generate_summary []).success_rate = 0 := by
  exact ⟨rfl, rfl, rfl, rfl, rfl, rfl, rfl⟩

/-- C5: the tabular `unique` validator (spec-modelled, absent from src)
reports a failing count of row count minus distinct-value count, a quantity
independent of which rows are duplicated (permutation-invariant), and on the
column `[1,2,2,3]` it reports `failed_rows = 1` (4 rows − 3 distinct). -/
theorem unique_failed_rows_spec (col col1 col2 : List Int) (hperm : col1.Perm col2) :
    uniqueFailedRows col = col.length - col.toFinset.card ∧
    uniqueFailedRows col1 = uniqueFailedRows col2 ∧
    uniqueFailedRows ([1, 2, 2, 3] : List Int) = 1 := by
  refine ⟨?_, ?_, by decide⟩
  · rw [List.card_toFinset]
    rfl
  · unfold uniqueFailedRows
    rw [hperm.length_eq, hperm.dedup.length_eq]

/-- Witness for C5: the duplicate count of `[1,2,2,3]` equals that of its
rearrangement `[2,1,3,2]`. -/
theorem unique_failed_rows_spec_witness :
    uniqueFailedRows ([1, 2, 2, 3] : List Int) = uniqueFailedRows ([2, 1, 3, 2] : List Int) :=
  (unique_failed_rows_spec [] [1, 2, 2, 3] [2, 1, 3, 2] (by decide)).2.1

/-- C8: in the different-statistics generator, table 1's statistic applies
`statistical_function1` to each listed column and adds the results when more
than one column is listed (with a single listed column, a single
application), while table 2's statistic applies `statistical_function2` to
table 2's first listed column only. -/
theorem different_comparison_column_expressions (f1 f2 c1 c1' c2 : String)
    (cs cs2 : List String) :
    columns1Expression f1 (c1 :: c1' :: cs) =
      Except.ok (String.intercalate " + "
        ((c1 :: c1' :: cs).map (fun col => f1 ++ "(" ++ col ++ ")"))) ∧
    columns1Expression f1 [c1] = Except.ok (f1 ++ "(" ++ c1 ++ ")") ∧
    columns2Expression f2 (c2 :: cs2) = Except.ok (f2 ++ "(" ++ c2 ++ ")") := by
  refine ⟨?_, rfl, rfl⟩
  unfold columns1Expression
  rw [if_pos]
  simp

/-- C2 counterexample: a `same_statistical_comparison` rule with no `table1`
parameter makes `generate_validation_sql` raise an `AttributeError` instead
of returning a vacuously-passing script. -/
theorem missing_comparison_tables_raise :
    generate_validation_sql { database_type := DataSourceType.postgresql, table_name := "users" }
      { rule_type := some "same_statistical_comparison" } =
    Except.error (PyErr.attributeError "'NoneType' object has no attribute 'get'") := rfl

/-- C2 (amended): a range rule with neither bound and a template rule with no
pattern key degrade to a vacuously-passing script (predicate `1=0`, zero
failures on any table with at least one non-NULL target value, and the
everything-matching default pattern `.*`), but a comparison rule with no
`table1` entry raises an `AttributeError` rather than degrading. -/
theorem missing_parameters_policy (ctx : SQLGenerationContext) (rule : PyRule) (c : String) :
    (readTag rule = some "value_range" → rule.target_column = some c →
      rule.parameters.min_value = none → rule.parameters.max_value = none →
      generate_validation_sql ctx rule =
        Except.ok (singleTableSql (rule.name.getD "Value Range Check") "1=0"
          (getTableReference ctx) c) ∧
      ∀ col, col.filterMap id ≠ [] →
        (singleTableRow (rule.name.getD "Value Range Check")
          (rangeViolates none none) col).failed_rows = some 0) ∧
    (readTag rule = some "value_template" → rule.target_column = some c →
      rule.parameters.pattern = none → rule.parameters.regex_pattern = none →
      generate_validation_sql ctx rule =
        Except.ok (singleTableSql (rule.name.getD "Value Template Check")
          (regexCondition ctx.database_type c ".*") (getTableReference ctx) c)) ∧
    ((readTag rule = some "same_statistical_comparison" ∨
      readTag rule = some "different_statistical_comparison") →
      rule.parameters.table1 = none →
      generate_validation_sql ctx rule = Except.error attributeErrNone) := by
  refine ⟨?_, ?_, ?_⟩
  · intro htag hcol hmin hmax
    constructor
    · unfold generate_validation_sql
      rw [htag]
      simp only [reduceIte]
      unfold generateValueRangeSql requireTargetColumn
      rw [hcol]
      simp [Bind.bind, Except.bind, rangeWhereClause, rangeConditions, hmin, hmax]
    · intro col hne
      cases hnn : col.filterMap id with
      | nil => exact absurd hnn hne
      | cons a l => simp [singleTableRow, sqlSumCase, hnn, rangeViolates]
  · intro htag hcol hpat hre
    unfold generate_validation_sql
    rw [htag]
    simp only [reduceIte]
    unfold generateValueTemplateSql requireTargetColumn
    rw [hcol]
    simp [Bind.bind, Except.bind, pyOrStr, hpat, hre]
  · intro htag htab
    rcases htag with htag | htag
    · have hg : generate_validation_sql ctx rule =
          generateSameStatisticalComparisonSql ctx rule := by
        simp [generate_validation_sql, htag]
      rw [hg]
      unfold generateSameStatisticalComparisonSql
      simp [htab]
    · have hg : generate_validation_sql ctx rule =
          generateDifferentStatisticalComparisonSql ctx rule := by
        simp [generate_validation_sql, htag]
      rw [hg]
      unfold generateDifferentStatisticalComparisonSql
      simp [htab]

/-- Witness for C2 (amended): the three parameterless shapes at concrete
rules, plus the zero-failure count on a one-value column. -/
theorem missing_parameters_policy_witness :
    (singleTableRow "R" (rangeViolates none none) [some 5]).failed_rows = some 0 ∧
    (generate_validation_sql { database_type := DataSourceType.postgresql, table_name := "users" }
        (ruleWithRuleTypeKey "value_range" (some "R") (some "age") {}) =
      Except.ok (singleTableSql "R" "1=0" "users" "age")) ∧
    (generate_validation_sql { database_type := DataSourceType.postgresql, table_name := "users" }
        (ruleWithRuleTypeKey "value_template" (some "T") (some "email") {}) =
      Except.ok (singleTableSql "T" (regexCondition DataSourceType.postgresql "email" ".*")
        "users" "email")) ∧
    (generate_validation_sql { database_type := DataSourceType.postgresql, table_name := "users" }
        (ruleWithRuleTypeKey "same_statistical_comparison" none none {}) =
      Except.error attributeErrNone) :=
  ⟨((missing_parameters_policy
      { database_type := DataSourceType.postgresql, table_name := "users" }
      (ruleWithRuleTypeKey "value_range" (some "R") (some "age") {}) "age").1
      (by decide) rfl rfl rfl).2 [some 5] (by decide),
   ((missing_parameters_policy
      { database_type := DataSourceType.postgresql, table_name := "users" }
      (ruleWithRuleTypeKey "value_range" (some "R") (some "age") {}) "age").1
      (by decide) rfl rfl rfl).1,
   (missing_parameters_policy
      { database_type := DataSourceType.postgresql, table_name := "users" }
      (ruleWithRuleTypeKey "value_template" (some "T") (some "email") {}) "email").2.1
      (by decide) rfl rfl rfl,
   (missing_parameters_policy
      { database_type := DataSourceType.postgresql, table_name := "users" }
      (ruleWithRuleTypeKey "same_statistical_comparison" none none {}) "x").2.2
      (Or.inl (by decide)) rfl⟩

theorem singleTableSql_last (a b c d : String) :
    (singleTableSql a b c d).data.getLast? = some ';' := by
  unfold singleTableSql
  rw [String.data_append, List.getLast?_append]
  rfl

theorem incrementalContinuitySql_last (a b c : String) :
    (incrementalContinuitySql a b c).data.getLast? = some ';' := by
  unfold incrementalContinuitySql
  rw [String.data_append, List.getLast?_append]
  rfl

theorem timestampContinuitySql_last (a b c : String) (g : Int) :
    (timestampContinuitySql a b c g).data.getLast? = some ';' := by
  unfold timestampContinuitySql
  rw [String.data_append, List.getLast?_append]
  rfl

theorem comparisonSqlTemplate_last (a b c d e f g h : String) :
    (comparisonSqlTemplate a b c d e f g h).data.getLast? = some ';' := by
  unfold comparisonSqlTemplate
  rw [String.data_append, List.getLast?_append]
  rfl

theorem generateValueRangeSql_ok_last (ctx : SQLGenerationContext) (r : PyRule) (s : String)
    (h : generateValueRangeSql ctx r = Except.ok s) : s.data.getLast? = some ';' := by
  unfold generateValueRangeSql requireTargetColumn at h
  cases hc : r.target_column with
  | none => rw [hc] at h; simp [Bind.bind, Except.bind] at h
  | some c =>
    rw [hc] at h
    simp only [Bind.bind, Except.bind, Except.ok.injEq] at h
    rw [← h]
    exact singleTableSql_last _ _ _ _

theorem generateValueTemplateSql_ok_last (ctx : SQLGenerationContext) (r : PyRule) (s : String)
    (h : generateValueTemplateSql ctx r = Except.ok s) : s.data.getLast? = some ';' := by
  unfold generateValueTemplateSql requireTargetColumn at h
  cases hc : r.target_column with
  | none => rw [hc] at h; simp [Bind.bind, Except.bind] at h
  | some c =>
    rw [hc] at h
    simp only [Bind.bind, Except.bind, Except.ok.injEq] at h
    rw [← h]
    exact singleTableSql_last _ _ _ _

theorem generateDataContinuitySql_ok_last (ctx : SQLGenerationContext) (r : PyRule) (s : String)
    (h : generateDataContinuitySql ctx r = Except.ok s) : s.data.getLast? = some ';' := by
  unfold generateDataContinuitySql requireTargetColumn at h
  cases hc : r.target_column with
  | none => rw [hc] at h; simp [Bind.bind, Except.bind] at h
  | some c =>
    rw [hc] at h
    simp only [Bind.bind, Except.bind] at h
    split at h
    · simp only [Except.ok.injEq] at h
      rw [← h]
      exact incrementalContinuitySql_last _ _ _
    · simp only [Except.ok.injEq] at h
      rw [← h]
      exact timestampContinuitySql_last _ _ _ _

theorem generateSameStatisticalComparisonSql_ok_last (ctx : SQLGenerationContext) (r : PyRule)
    (s : String) (h : generateSameStatisticalComparisonSql ctx r = Except.ok s) :
    s.data.getLast? = some ';' := by
  unfold generateSameStatisticalComparisonSql at h
  cases h1 : r.parameters.table1 with
  | none => simp [h1] at h
  | some t1 =>
    cases h2 : r.parameters.table2 with
    | none =>
      simp only [h1, h2] at h
      cases h3 : tableRefStr t1 <;> simp [h3, Bind.bind, Except.bind] at h
    | some t2 =>
      simp only [h1, h2] at h
      cases h3 : tableRefStr t1 with
      | error e => simp [h3, Bind.bind, Except.bind] at h
      | ok v1 =>
        cases h4 : tableRefStr t2 with
        | error e => simp [h3, h4, Bind.bind, Except.bind] at h
        | ok v2 =>
          cases h5 : firstColumn t1 with
          | error e => simp [h3, h4, h5, Bind.bind, Except.bind] at h
          | ok c1 =>
            cases h6 : firstColumn t2 with
            | error e => simp [h3, h4, h5, h6, Bind.bind, Except.bind] at h
            | ok c2 =>
              simp only [h3, h4, h5, h6, Bind.bind, Except.bind, Except.ok.injEq] at h
              rw [← h]
              exact comparisonSqlTemplate_last _ _ _ _ _ _ _ _

theorem generateDifferentStatisticalComparisonSql_ok_last (ctx : SQLGenerationContext)
    (r : PyRule) (s : String)
    (h : generateDifferentStatisticalComparisonSql ctx r = Except.ok s) :
    s.data.getLast? = some ';' := by
  unfold generateDifferentStatisticalComparisonSql at h
  cases h1 : r.parameters.table1 with
  | none => simp [h1] at h
  | some t1 =>
    cases h2 : r.parameters.table2 with
    | none =>
      simp only [h1, h2] at h
      cases h3 : tableRefStr t1 <;> simp [h3, Bind.bind, Except.bind] at h
    | some t2 =>
      simp only [h1, h2] at h
      cases h3 : tableRefStr t1 with
      | error e => simp [h3, Bind.bind, Except.bind] at h
      | ok v1 =>
        cases h4 : tableRefStr t2 with
        | error e => simp [h3, h4, Bind.bind, Except.bind] at h
        | ok v2 =>
          cases h5 : requireColumns t1 with
          | error e => simp [h3, h4, h5, Bind.bind, Except.bind] at h
          | ok cs1 =>
            cases h6 : requireColumns t2 with
            | error e => simp [h3, h4, h5, h6, Bind.bind, Except.bind] at h
            | ok cs2 =>
              cases h7 : columns1Expression (r.parameters.statistical_function1.getD "SUM") cs1 with
              | error e => simp [h3, h4, h5, h6, h7, Bind.bind, Except.bind] at h
              | ok e1 =>
                cases h8 : columns2Expression (r.parameters.statistical_function2.getD "AVG") cs2 with
                | error e => simp [h3, h4, h5, h6, h7, h8, Bind.bind, Except.bind] at h
                | ok e2 =>
                  simp only [h3, h4, h5, h6, h7, h8, Bind.bind, Except.bind,
                    Except.ok.injEq] at h
                  rw [← h]
                  exact comparisonSqlTemplate_last _ _ _ _ _ _ _ _

theorem generate_validation_sql_ok_last (ctx : SQLGenerationContext) (r : PyRule) (s : String)
    (h : generate_validation_sql ctx r = Except.ok s) : s.data.getLast? = some ';' := by
  unfold generate_validation_sql at h
  simp only [] at h
  split at h
  · exact generateValueRangeSql_ok_last ctx r s h
  split at h
  · exact generateValueTemplateSql_ok_last ctx r s h
  split at h
  · exact generateDataContinuitySql_ok_last ctx r s h
  split at h
  · exact generateSameStatisticalComparisonSql_ok_last ctx r s h
  split at h
  · exact generateDifferentStatisticalComparisonSql_ok_last ctx r s h
  · simp at h

theorem generateRuleSqls_ok_mem (ctx : SQLGenerationContext) (rules : List (String × PyRule))
    (pairs : List (String × String)) (h : generateRuleSqls ctx rules = Except.ok pairs) :
    ∀ q ∈ pairs, ∃ r, generate_validation_sql ctx r = Except.ok q.2 := by
  induction rules generalizing pairs with
  | nil =>
    unfold generateRuleSqls at h
    simp only [Except.ok.injEq] at h
    subst h
    intro q hq
    simp at hq
  | cons p rest ih =>
    unfold generateRuleSqls at h
    cases hg : generate_validation_sql ctx p.2 with
    | error e => simp [hg, Bind.bind, Except.bind] at h
    | ok s =>
      cases hr : generateRuleSqls ctx rest with
      | error e => simp [hg, hr, Bind.bind, Except.bind] at h
      | ok others =>
        simp only [hg, hr, Bind.bind, Except.bind, Except.ok.injEq] at h
        subst h
        intro q hq
        rcases List.mem_cons.mp hq with hq | hq
        · exact ⟨p.2, by rw [hq]; exact hg⟩
        · exact ih others hr q hq

theorem string_join_cons (a : String) (l : List String) :
    String.join (a :: l) = a ++ String.join l := by
  simp only [String.join_eq, List.map_cons, List.flatten_cons]
  rfl

theorem join_blocks (pairs : List (String × String)) (hne : pairs ≠ []) :
    String.join (pairs.map (fun p => subRuleBlock p.1 p.2)) =
      complexBody pairs ++ "\n\nUNION ALL\n\n" := by
  induction pairs with
  | nil => exact absurd rfl hne
  | cons p rest ih =>
    cases rest with
    | nil =>
      show String.join [subRuleBlock p.1 p.2] = _
      rw [show String.join [subRuleBlock p.1 p.2] = subRuleBlock p.1 p.2 from rfl]
      unfold subRuleBlock complexBody
      simp [String.append_assoc]
    | cons q rest2 =>
      rw [List.map_cons, string_join_cons, ih (by simp)]
      rw [show complexBody (p :: q :: rest2) = "-- Rule ID: " ++ p.1 ++ "\n" ++ p.2 ++
        "\n\nUNION ALL\n\n" ++ complexBody (q :: rest2) from rfl]
      unfold subRuleBlock
      simp [String.append_assoc]

theorem complexBody_last (pairs : List (String × String)) (hne : pairs ≠ [])
    (hall : ∀ q ∈ pairs, q.2.data.getLast? = some ';') :
    (complexBody pairs).data.getLast? = some ';' := by
  induction pairs with
  | nil => exact absurd rfl hne
  | cons p rest ih =>
    cases rest with
    | nil =>
      unfold complexBody
      rw [String.data_append, List.getLast?_append, hall p (by simp)]
      rfl
    | cons q rest2 =>
      unfold complexBody
      rw [String.data_append, List.getLast?_append,
        ih (by simp) (fun x hx => hall x (List.mem_cons_of_mem p hx))]
      rfl

theorem pyRstrip_strip_tail (x b t : String) (chars : List Char)
    (hall : ∀ ch ∈ t.data, chars.contains ch = true) (c : Char)
    (hlast : b.data.getLast? = some c) (hc : chars.contains c = false) :
    pyRstrip (x ++ b ++ t) chars = x ++ b := by
  unfold pyRstrip
  rw [String.data_append, String.data_append, List.reverse_append, List.reverse_append]
  have hdrop : List.dropWhile (fun ch => chars.contains ch) t.data.reverse = [] :=
    List.dropWhile_eq_nil_iff.mpr (fun ch hch => hall ch (List.mem_reverse.mp hch))
  rw [List.dropWhile_append, hdrop]
  simp only [List.isEmpty_nil, if_true]
  have hb : b.data.reverse.head? = some c := by rw [List.head?_reverse]; exact hlast
  cases hbr : b.data.reverse with
  | nil => rw [hbr] at hb; simp at hb
  | cons hd tl =>
    rw [hbr] at hb
    simp only [List.head?_cons, Option.some.injEq] at hb
    subst hb
    rw [List.cons_append, List.dropWhile_cons_of_neg (by rw [hc]; simp)]
    rw [← List.cons_append, ← hbr, List.reverse_append, List.reverse_reverse,
      List.reverse_reverse]
    rfl

/-- C9: the combined script of a complex rule is the comment header (the only
place the boolean expression appears) followed by each sub-rule's generated
script, consecutive scripts separated by `UNION ALL`; the expression's
AND/OR/NOT content has no effect on which scripts are emitted, their order,
or how they are combined, since `complexBody` does not depend on it. -/
theorem complex_rule_union_all (ctx : SQLGenerationContext) (cr : PyComplexRule)
    (pairs : List (String × String))
    (hgen : generateRuleSqls ctx cr.rules = Except.ok pairs) (hne : pairs ≠ []) :
    generate_complex_rule_sql ctx cr =
      Except.ok (complexRuleHeader cr.name cr.expression ++ complexBody pairs) := by
  unfold generate_complex_rule_sql
  rw [hgen]
  simp only [Bind.bind, Except.bind, Except.ok.injEq]
  have hall : ∀ q ∈ pairs, q.2.data.getLast? = some ';' := by
    intro q hq
    obtain ⟨r, hr⟩ := generateRuleSqls_ok_mem ctx cr.rules pairs hgen q hq
    exact generate_validation_sql_ok_last ctx r q.2 hr
  rw [join_blocks pairs hne, ← String.append_assoc]
  exact pyRstrip_strip_tail (complexRuleHeader cr.name cr.expression) (complexBody pairs)
    "\n\nUNION ALL\n\n" rstripChars (by decide) ';'
    (complexBody_last pairs hne hall) (by decide)

/-- Witness for C9: a two-sub-rule complex rule whose expression `A AND B`
appears only in the header, the two scripts joined by `UNION ALL`. -/
theorem complex_rule_union_all_witness :
    generate_complex_rule_sql { database_type := DataSourceType.postgresql, table_name := "users" }
      { name := "CR", expression := "A AND B",
        rules := [("r1", ruleWithRuleTypeKey "value_range" none (some "age") {}),
                  ("r2", ruleWithRuleTypeKey "value_template" none (some "email") {})] } =
    Except.ok (complexRuleHeader "CR" "A AND B" ++ complexBody
      [("r1", singleTableSql "Value Range Check" "1=0" "users" "age"),
       ("r2", singleTableSql "Value Template Check"
         (regexCondition DataSourceType.postgresql "email" ".*") "users" "email")]) :=
  complex_rule_union_all
    { database_type := DataSourceType.postgresql, table_name := "users" }
    { name := "CR", expression := "A AND B",
      rules := [("r1", ruleWithRuleTypeKey "value_range" none (some "age") {}),
                ("r2", ruleWithRuleTypeKey "value_template" none (some "email") {})] }
    [("r1", singleTableSql "Value Range Check" "1=0" "users" "age"),
     ("r2", singleTableSql "Value Template Check"
       (regexCondition DataSourceType.postgresql "email" ".*") "users" "email")]
    rfl (by decide)
